import Mathlib

/-!
Verification of the training core of a Dreamer-style model-based RL agent,
a shallow embedding of dreamerv2/training/trainer.py.

Conventions of the embedding:
  - A tensor of shape [time, batch] (trailing singleton feature dimensions
    dropped) is a list of rows, one row per time step: Mat below.
  - Machine floats become exact rationals; torch reductions (sum, mean,
    cumprod along dim 0) become the corresponding list operations.
  - Latent model states are abstract: every definition is parameterized by a
    state type and by the decoder heads it calls, since the network layer
    classes (DenseModel and friends) live outside the trainer module and are
    specified only by their calling contract (a distribution-like object
    exposing mean and log_prob, or a raw value head).
  - Value-level stop-gradients (detach) are the identity on values; gradient
    questions are settled separately with a taint-tracking embedding (TD
    below) in which every scalar carries a Boolean flag recording whether a
    gradient path from the tracked sources reaches it, and detach clears the
    flag.
-/

namespace DreamerV2

/-- A value tensor of shape [time, batch]: one list row per time step. -/
abbrev Mat (α : Type) := List (List α)

/-- Ternary pointwise zip, truncating at the shortest argument. -/
def zipWith3 {α β γ δ : Type} (f : α → β → γ → δ) : List α → List β → List γ → List δ
  | a :: xs, b :: ys, c :: zs => f a b c :: zipWith3 f xs ys zs
  | _, _, _ => []

/-- Pointwise binary zip of [time, batch] tensors. -/
def matZipWith {α β γ : Type} (f : α → β → γ) (m₁ : Mat α) (m₂ : Mat β) : Mat γ :=
  List.zipWith (List.zipWith f) m₁ m₂

/-- Pointwise ternary zip of [time, batch] tensors. -/
def matZipWith3 {α β γ δ : Type} (f : α → β → γ → δ) (m₁ : Mat α) (m₂ : Mat β) (m₃ : Mat γ) :
    Mat δ :=
  zipWith3 (fun r₁ r₂ r₃ => zipWith3 f r₁ r₂ r₃) m₁ m₂ m₃

/-- Sum of every element of a [time, batch] tensor (torch .sum over all dims). -/
def matSum (m : Mat ℚ) : ℚ := (m.map List.sum).sum

/-- Number of elements of a [time, batch] tensor. -/
def matCount (m : Mat ℚ) : ℕ := (m.map List.length).sum

/-- Mean of every element of a [time, batch] tensor (torch .mean over all dims). -/
def matMean (m : Mat ℚ) : ℚ := matSum m / (matCount m : ℚ)

/-- Mean across the batch dimension of one time row (torch .mean with dim 1). -/
def rowMean (l : List ℚ) : ℚ := l.sum / (l.length : ℚ)

/-- Calling contract of a decoded head with a distribution output: an object
exposing mean and log_prob, as the DenseModel heads of the trainer do. -/
structure Dist where
  mean : ℚ
  logProb : ℚ → ℚ

/-- The decoder/value heads the actor-critic stage calls, abstracted over the
latent model-state type sigma.  rewardDec and discountDec return
distribution-like objects (trainer uses their mean); valueFn and
targetValueFn are the live and target value heads, whose raw output is the
value estimate. -/
structure Heads (σ : Type) where
  rewardDec : σ → Dist
  discountDec : σ → Dist
  valueFn : σ → ℚ
  targetValueFn : σ → ℚ

/-- Modelled from the spec: compute_return (dreamerv2.utils.algorithm, not in
the sources).  Backward-recursive lambda-return over [horizon, batch]
tensors: R_h = reward_h + discount_h * ((1-lambda) * value_(h+1) + lambda *
R_(h+1)), bootstrapped at the end from the final value estimate. -/
def computeReturn (rewards values discounts : Mat ℚ) (bootstrap : List ℚ) (lam : ℚ) : Mat ℚ :=
  match rewards, values, discounts with
  | r :: rs, _v :: vs, d :: ds =>
      let rest := computeReturn rs vs ds bootstrap lam
      let vnext := match vs with
        | [] => bootstrap
        | v₁ :: _ => v₁
      let rnext := match rest with
        | [] => bootstrap
        | r₁ :: _ => r₁
      (zipWith3 (fun rw dc nx => rw + dc * nx) r d
        (List.zipWith (fun vn rn => (1 - lam) * vn + lam * rn) vnext rnext)) :: rest
  | _, _, _ => []

/-- Line 192 of trainer.py: torch.cat of a ones row (ones_like of row 0) with
the remaining rows of the decoded discount tensor. -/
def catOnes (m : Mat ℚ) : Mat ℚ :=
  match m with
  | [] => []
  | d₀ :: ds => (d₀.map fun _ => (1 : ℚ)) :: ds

/-- Helper for the running product along time: each output row is the product
of the accumulator with the next input row, elementwise over the batch. -/
def cumprodFrom (acc : List ℚ) : Mat ℚ → Mat ℚ
  | [] => []
  | r :: rs =>
      let acc₂ := List.zipWith (· * ·) acc r
      acc₂ :: cumprodFrom acc₂ rs

/-- torch.cumprod along dim 0: out 0 = in 0, out t = out (t-1) * in t. -/
def cumprodRows : Mat ℚ → Mat ℚ
  | [] => []
  | r :: rs => r :: cumprodFrom r rs

/-- The discount-weight sequence the way the spec describes it: it starts at 1
at step 0 and compounds the decoded discount factors of the subsequent
steps. -/
def cumulativeDiscount : Mat ℚ → Mat ℚ
  | [] => []
  | d₀ :: ds => (d₀.map fun _ => (1 : ℚ)) :: cumprodFrom (d₀.map fun _ => (1 : ℚ)) ds

/-- Line 180-181 of trainer.py: the imagined reward, the mean of the decoded
reward distribution at every imagined step. -/
def imagReward {σ : Type} (hd : Heads σ) (states : Mat σ) : Mat ℚ :=
  states.map (·.map fun s => (hd.rewardDec s).mean)

/-- Lines 182-185 of trainer.py: the imagined value, the output of the target
value head when a fixed target is configured and of the live value head
otherwise. -/
def imagValue {σ : Type} (hd : Heads σ) (useFixedTarget : Bool) (states : Mat σ) : Mat ℚ :=
  states.map (·.map (if useFixedTarget then hd.targetValueFn else hd.valueFn))

/-- Lines 188-189 of trainer.py: the decoded discount factor (mean of the
discount distribution) at every imagined step. -/
def imagDiscountArr {σ : Type} (hd : Heads σ) (states : Mat σ) : Mat ℚ :=
  states.map (·.map fun s => (hd.discountDec s).mean)

/-- Line 191 of trainer.py: lambda returns over the imagined rollout, from the
rewards, values and discounts of all steps but the last, bootstrapped from
the final value estimate. -/
def imagLambdaReturns {σ : Type} (hd : Heads σ) (useFixedTarget : Bool) (lam : ℚ)
    (states : Mat σ) : Mat ℚ :=
  computeReturn (imagReward hd states).dropLast (imagValue hd useFixedTarget states).dropLast
    (imagDiscountArr hd states).dropLast ((imagValue hd useFixedTarget states).getLastD []) lam

/-- Lines 192-193 of trainer.py: replace step 0 of the decoded discount tensor
with ones, drop the final step, and take the running product along time. -/
def imagDiscountW {σ : Type} (hd : Heads σ) (states : Mat σ) : Mat ℚ :=
  cumprodRows ((catOnes (imagDiscountArr hd states)).dropLast)

/-- Line 201 of trainer.py: value predictions on the imagined model states
excluding the last step (those states were detached; detach is the identity
on values). -/
def valuePredOf {σ : Type} (hd : Heads σ) (states : Mat σ) : Mat ℚ :=
  states.dropLast.map (·.map hd.valueFn)

/-- Lines 170-204 of trainer.py, Trainer.actorcritc_loss, starting from the
imagined model-state sequence and the policy-entropy sequence produced by the
imagination rollout (both of length horizon + 1).  The first component is the
actor loss, the second the value loss.  torch.mean applied to the 0-dim
result of .sum() in line 202 is the identity, so the value loss is the plain
sum of its elementwise terms. -/
def actorcritcLoss {σ : Type} (hd : Heads σ) (useFixedTarget : Bool) (entScale lam : ℚ)
    (states : Mat σ) (entropy : Mat ℚ) : ℚ × ℚ :=
  let lambdaReturns := imagLambdaReturns hd useFixedTarget lam states
  let discountW := imagDiscountW hd states
  let ent := entropy.dropLast
  let actorLoss :=
    -(((matZipWith3 (fun w r h => w * (r + entScale * h)) discountW lambdaReturns ent).map
        rowMean).sum)
  let valuePred := valuePredOf hd states
  let valueLoss :=
    matSum (matZipWith3 (fun w t p => (1 / 2 : ℚ) * (w * (t - p)) ^ 2) discountW lambdaReturns
      valuePred)
  (actorLoss, valueLoss)

/-- The value loss the way the specification sentence words it: the mean over
all elements of one half of the squared error, each squared-error term scaled
(outside the square) by its discount weight. -/
def specValueLoss (weights targets preds : Mat ℚ) : ℚ :=
  matMean (matZipWith3 (fun w t p => (1 / 2 : ℚ) * (w * (t - p) ^ 2)) weights targets preds)

/-- A scalar of the gradient-taint embedding: v is the value, g records
whether a path of the autodiff graph from one of the tracked gradient sources
reaches this scalar.  Gradients flow only along graph dependencies, so g =
false certifies that no gradient from the tracked sources flows here. -/
structure TD where
  v : ℚ
  g : Bool

/-- torch detach: same value, every gradient path cut. -/
def TD.detach (x : TD) : TD := ⟨x.v, false⟩

/-- Addition of tracked scalars: dependencies of both sides merge. -/
def tdAdd (a b : TD) : TD := ⟨a.v + b.v, a.g || b.g⟩

/-- Subtraction of tracked scalars. -/
def tdSub (a b : TD) : TD := ⟨a.v - b.v, a.g || b.g⟩

/-- Multiplication of tracked scalars. -/
def tdMul (a b : TD) : TD := ⟨a.v * b.v, a.g || b.g⟩

/-- Squaring of a tracked scalar. -/
def tdSq (a : TD) : TD := ⟨a.v ^ 2, a.g⟩

/-- Scaling of a tracked scalar by the gradient-free constant one half. -/
def tdHalf (a : TD) : TD := ⟨(1 / 2 : ℚ) * a.v, a.g⟩

/-- Sum over every element of a [time, batch] tensor of tracked scalars. -/
def tdMatSum (m : Mat TD) : TD :=
  m.foldr (fun row acc => row.foldr tdAdd acc) ⟨0, false⟩

/-- Lines 196-202 of trainer.py in the gradient-taint embedding: the imagined
model states (last step excluded), the discount weights and the lambda-return
targets are detached, the value head vf is re-evaluated on the detached
states (its output inherits exactly the taint of its input, since parameters
of the value network are not among the tracked sources), and the value loss
is the sum of the halved squared discount-weighted errors. -/
def valueLossTD (vf : ℚ → ℚ) (imagMs discountW lambdaRet : Mat TD) : TD :=
  let valueMs := imagMs.dropLast.map (·.map TD.detach)
  let valueDiscount := discountW.map (·.map TD.detach)
  let valueTarget := lambdaRet.map (·.map TD.detach)
  let valuePred := valueMs.map (·.map fun s => (⟨vf s.v, s.g⟩ : TD))
  tdMatSum (matZipWith3 (fun w t p => tdHalf (tdSq (tdMul w (tdSub t p)))) valueDiscount
    valueTarget valuePred)

/-- Every element of a [time, batch] tensor of tracked scalars is free of the
tracked gradient sources. -/
def matUntainted (m : Mat TD) : Prop := ∀ row ∈ m, ∀ x ∈ row, x.g = false

/-- Pointwise log-likelihood of a target tensor under a tensor of decoded
distributions. -/
def distLogProbMat (dm : Mat Dist) (target : Mat ℚ) : Mat ℚ :=
  matZipWith (fun d x => d.logProb x) dm target

/-- Lines 223-225 of trainer.py, Trainer._obs_loss: negative mean
log-likelihood of the observations under the decoded distribution. -/
def obsLossOf (dm : Mat Dist) (obs : Mat ℚ) : ℚ := -matMean (distLogProbMat dm obs)

/-- Lines 238-240 of trainer.py, Trainer._reward_loss: negative mean
log-likelihood of the rewards under the decoded reward distribution. -/
def rewardLossOf (dm : Mat Dist) (rewards : Mat ℚ) : ℚ := -matMean (distLogProbMat dm rewards)

/-- Lines 242-245 of trainer.py, Trainer._pcont_loss: negative mean
log-likelihood of the non-terminal indicator (the float cast is the identity
here) under the decoded discount distribution. -/
def pcontLossOf (dm : Mat Dist) (nonterms : Mat ℚ) : ℚ := -matMean (distLogProbMat dm nonterms)

/-- rssm_detach at the value level: stop-gradient is the identity on values. -/
def rssmDetach {π : Type} (x : π) : π := x

/-- Detach applied to every latent-distribution parameter of a sequence. -/
def matDetach {π : Type} (m : Mat π) : Mat π := m.map (·.map rssmDetach)

/-- Lines 227-236 of trainer.py, Trainer._kl_loss, abstracted over the latent
distribution-parameter type pi and the KL divergence of the latent family.
With a balancing scale b it is the convex combination b * mean KL(detached
posterior, prior) + (1 - b) * mean KL(posterior, detached prior); without one
it is the plain mean KL(posterior, prior). -/
def klLossOf {π : Type} (balance : Option ℚ) (klFn : π → π → ℚ) (prior post : Mat π) : ℚ :=
  match balance with
  | some b =>
      b * matMean (matZipWith klFn (matDetach post) prior) +
        (1 - b) * matMean (matZipWith klFn post (matDetach prior))
  | none => matMean (matZipWith klFn post prior)

/-- The five scalar losses representation_loss returns. -/
structure RepOut where
  modelLoss : ℚ
  klLoss : ℚ
  obsLoss : ℚ
  rewardLoss : ℚ
  pcontLoss : ℚ

/-- Lines 206-221 of trainer.py, Trainer.representation_loss, starting from
the posterior model-state sequence produced by the observation rollout (the
RSSM rollout itself lives outside the trainer module) together with the
prior/posterior latent-distribution parameters.  Observations are decoded
from the full posterior model-state sequence; rewards and discounts are
decoded from all steps but the last and scored against targets shifted by
one step. -/
def representationLoss {σ π : Type} (klScale pcontScale : ℚ) (balance : Option ℚ)
    (klFn : π → π → ℚ) (obsDec rewardDec pcontDec : σ → Dist) (postMs : Mat σ)
    (obs rewards nonterms : Mat ℚ) (prior post : Mat π) : RepOut :=
  let obsDist := postMs.map (·.map obsDec)
  let rewardDist := postMs.dropLast.map (·.map rewardDec)
  let pcontDist := postMs.dropLast.map (·.map pcontDec)
  let oLoss := obsLossOf obsDist obs
  let rLoss := rewardLossOf rewardDist (rewards.drop 1)
  let pLoss := pcontLossOf pcontDist (nonterms.drop 1)
  let kLoss := klLossOf balance klFn prior post
  ⟨klScale * kLoss + rLoss + oLoss + pcontScale * pLoss, kLoss, oLoss, rLoss, pLoss⟩

/-- Serialized parameter state of one sub-model (state_dict contents). -/
abbrev Param := List ℚ

/-- Errors the trainer can raise: NotImplementedError, AttributeError on a
missing attribute, KeyError on a missing dictionary key. -/
inductive TrainerErr where
  | notImplemented : TrainerErr
  | attributeError : String → TrainerErr
  | keyError : String → TrainerErr
deriving DecidableEq

/-- The training_config dictionary: the keys Trainer.__init__ reads. -/
structure TrainingConfig where
  useFixedTarget : Bool
  useDiscountModel : Bool
  useKlBalancing : Bool
  klBalancingScale : ℚ
  seqLen : ℕ
  batchSize : ℕ
  collectIntervals : ℕ
  seedEpisodes : ℕ
  modelLr : ℚ
  actorLr : ℚ
  valueLr : ℚ
  discount : ℚ
  lambdaQ : ℚ
  horizon : ℕ
  klScale : ℚ
  pcontScale : ℚ
  actorEntropyScale : ℚ
  gradClipNorm : ℚ
deriving DecidableEq

/-- Freshly initialized parameters of the eight sub-model constructors. -/
structure NetInit where
  rssm : Param
  actionModel : Param
  rewardDecoder : Param
  valueModel : Param
  targetValueModel : Param
  discountModel : Param
  obsEncoder : Param
  obsDecoder : Param
deriving DecidableEq

/-- The Trainer object: sub-model attributes (Option for the ones that
__init__ creates only conditionally), the scalar configuration it copies out
of training_config, and the three optimizer parameter lists built by
optim_initialize. -/
structure Trainer where
  rssm : Param
  actionModel : Param
  rewardDecoder : Param
  valueModel : Param
  targetValueModel : Option Param
  discountModel : Option Param
  obsEncoder : Option Param
  obsDecoder : Option Param
  pixels : Bool
  useFixedTarget : Bool
  klBalancingScale : Option ℚ
  seqLen : ℕ
  batchSize : ℕ
  collectIntervals : ℕ
  seedEpisodes : ℕ
  modelLr : ℚ
  actorLr : ℚ
  valueLr : ℚ
  discount : ℚ
  lambdaQ : ℚ
  horizon : ℕ
  klScale : ℚ
  pcontScale : ℚ
  actorEntropyScale : ℚ
  gradClipNorm : ℚ
  worldList : List Param
  actorList : List Param
  valueList : List Param
  actorcriticList : List Param
deriving DecidableEq

/-- Lines 76-85 of trainer.py, Trainer.optim_initialize: builds the world,
actor and value parameter lists.  Building world_list reads the attributes
ObsEncoder, RSSM, RewardDecoder, ObsDecoder, DiscountModel in that order and
raises AttributeError at the first one that was never created; value_list
additionally reads TargetValueModel when a fixed target is configured. -/
def optimInit (t : Trainer) : Except TrainerErr Trainer :=
  match t.obsEncoder with
  | none => Except.error (TrainerErr.attributeError "ObsEncoder")
  | some enc =>
    match t.obsDecoder with
    | none => Except.error (TrainerErr.attributeError "ObsDecoder")
    | some dec =>
      match t.discountModel with
      | none => Except.error (TrainerErr.attributeError "DiscountModel")
      | some dm =>
        if t.useFixedTarget then
          match t.targetValueModel with
          | none => Except.error (TrainerErr.attributeError "TargetValueModel")
          | some tv =>
              Except.ok
                { t with
                  worldList := [enc, t.rssm, t.rewardDecoder, dec, dm]
                  actorList := [t.actionModel]
                  valueList := [t.valueModel, tv]
                  actorcriticList := [t.actionModel, t.valueModel] }
        else
          Except.ok
            { t with
              worldList := [enc, t.rssm, t.rewardDecoder, dec, dm]
              actorList := [t.actionModel]
              valueList := [t.valueModel]
              actorcriticList := [t.actionModel, t.valueModel] }

/-- Lines 16-74 of trainer.py, Trainer.__init__: creates RSSM, ActionModel,
RewardDecoder and ValueModel; creates TargetValueModel only under the fixed
target flag and immediately hard-copies the value parameters into it (line
44); creates DiscountModel only under the discount-model flag; raises
NotImplementedError when pixels is set, otherwise creates the dense
observation encoder/decoder; copies the scalar configuration; finally runs
optim_initialize. -/
def trainerInit (cfg : TrainingConfig) (ini : NetInit) (pixels : Bool) :
    Except TrainerErr Trainer :=
  let targetValue : Option Param := if cfg.useFixedTarget then some ini.valueModel else none
  let discountM : Option Param := if cfg.useDiscountModel then some ini.discountModel else none
  if pixels then Except.error TrainerErr.notImplemented
  else
    optimInit
      { rssm := ini.rssm
        actionModel := ini.actionModel
        rewardDecoder := ini.rewardDecoder
        valueModel := ini.valueModel
        targetValueModel := targetValue
        discountModel := discountM
        obsEncoder := some ini.obsEncoder
        obsDecoder := some ini.obsDecoder
        pixels := pixels
        useFixedTarget := cfg.useFixedTarget
        klBalancingScale := if cfg.useKlBalancing then some cfg.klBalancingScale else none
        seqLen := cfg.seqLen
        batchSize := cfg.batchSize
        collectIntervals := cfg.collectIntervals
        seedEpisodes := cfg.seedEpisodes
        modelLr := cfg.modelLr
        actorLr := cfg.actorLr
        valueLr := cfg.valueLr
        discount := cfg.discount
        lambdaQ := cfg.lambdaQ
        horizon := cfg.horizon
        klScale := cfg.klScale
        pcontScale := cfg.pcontScale
        actorEntropyScale := cfg.actorEntropyScale
        gradClipNorm := cfg.gradClipNorm
        worldList := []
        actorList := []
        valueList := []
        actorcriticList := [] }

/-- Lines 99-100 of trainer.py, Trainer.update_target: hard-copies the value
parameters into the target value model (AttributeError when no target value
model was created). -/
def updateTarget (t : Trainer) : Except TrainerErr Trainer :=
  match t.targetValueModel with
  | none => Except.error (TrainerErr.attributeError "TargetValueModel")
  | some _ => Except.ok { t with targetValueModel := some t.valueModel }

/-- Lines 253-254 of trainer.py, Trainer.save_model: unconditionally raises
NotImplementedError for every save name. -/
def saveModel (_t : Trainer) (_saveName : String) : Except TrainerErr Unit :=
  Except.error TrainerErr.notImplemented

/-- Lines 247-248 of trainer.py, the standalone Trainer._actor_loss entry
point: unconditionally raises NotImplementedError. -/
def actorLossEntry (_t : Trainer) : Except TrainerErr ℚ :=
  Except.error TrainerErr.notImplemented

/-- Lines 250-251 of trainer.py, the standalone Trainer._value_loss entry
point: unconditionally raises NotImplementedError. -/
def valueLossEntry (_t : Trainer) : Except TrainerErr ℚ :=
  Except.error TrainerErr.notImplemented

/-- Lines 267-274 of trainer.py, Trainer.load_save_dict: restores the seven
sub-models in the fixed order RSSM, ObsEncoder, ObsDecoder, RewardDecoder,
ActionModel, ValueModel, DiscountModel.  Each step first looks its key up in
the saved dictionary (KeyError stops the sequence) and then overwrites that
sub-model, so on a missing key every earlier sub-model has already been
overwritten.  The result pairs the (possibly partially updated) trainer with
the missing key, if any. -/
def loadSaveDict (t : Trainer) (d : String → Option Param) : Trainer × Option String :=
  match d "RSSM" with
  | none => (t, some "RSSM")
  | some p₀ =>
    let t := { t with rssm := p₀ }
    match d "ObsEncoder" with
    | none => (t, some "ObsEncoder")
    | some p₁ =>
      let t := { t with obsEncoder := some p₁ }
      match d "ObsDecoder" with
      | none => (t, some "ObsDecoder")
      | some p₂ =>
        let t := { t with obsDecoder := some p₂ }
        match d "RewardDecoder" with
        | none => (t, some "RewardDecoder")
        | some p₃ =>
          let t := { t with rewardDecoder := p₃ }
          match d "ActionModel" with
          | none => (t, some "ActionModel")
          | some p₄ =>
            let t := { t with actionModel := p₄ }
            match d "ValueModel" with
            | none => (t, some "ValueModel")
            | some p₅ =>
              let t := { t with valueModel := p₅ }
              match d "DiscountModel" with
              | none => (t, some "DiscountModel")
              | some p₆ => ({ t with discountModel := some p₆ }, none)

/-- The fixed key order of the checkpoint bundle. -/
def saveKeyN (i : ℕ) : String :=
  ["RSSM", "ObsEncoder", "ObsDecoder", "RewardDecoder", "ActionModel", "ValueModel",
    "DiscountModel"].getD i ""

/-- The loadable sub-model slot of a trainer at each position of the fixed
key order, as it would be saved (the always-present sub-models wrapped in
some). -/
def loadedFieldN (t : Trainer) (i : ℕ) : Option Param :=
  [some t.rssm, t.obsEncoder, t.obsDecoder, some t.rewardDecoder, some t.actionModel,
    some t.valueModel, t.discountModel].getD i none

/-- Concrete heads over rational model states: the reward head decodes the
state itself as mean, the discount head decodes the constant one, both value
heads are zero. -/
def headsWit : Heads ℚ :=
  ⟨fun s => ⟨s, fun _ => 0⟩, fun _ => ⟨1, fun _ => 0⟩, fun _ => 0, fun _ => 0⟩

/-- A concrete imagined model-state sequence: three steps, batch one. -/
def statesWit : Mat ℚ := [[1], [1], [0]]

/-- A concrete policy-entropy sequence matching statesWit. -/
def entropyWit : Mat ℚ := [[0], [0], [0]]

/-- A concrete training configuration with both optional sub-models enabled. -/
def cfgOn : TrainingConfig :=
  ⟨true, true, true, 4/5, 5, 4, 2, 1, 1/500, 1/2500, 1/2500, 99/100, 19/20, 3, 1/10, 5, 1/1000,
    100⟩

/-- The same configuration with the discount-model flag cleared. -/
def cfgNoDiscount : TrainingConfig := { cfgOn with useDiscountModel := false }

/-- Concrete fresh sub-model parameters. -/
def iniWit : NetInit := ⟨[1], [2], [3], [4], [5], [6], [7], [8]⟩

/-- A concrete fully constructed trainer with a target value model. -/
def trainerWit : Trainer :=
  { rssm := [1]
    actionModel := [2]
    rewardDecoder := [3]
    valueModel := [4]
    targetValueModel := some [9]
    discountModel := some [6]
    obsEncoder := some [7]
    obsDecoder := some [8]
    pixels := false
    useFixedTarget := true
    klBalancingScale := some (4/5)
    seqLen := 5
    batchSize := 4
    collectIntervals := 2
    seedEpisodes := 1
    modelLr := 1/500
    actorLr := 1/2500
    valueLr := 1/2500
    discount := 99/100
    lambdaQ := 19/20
    horizon := 3
    klScale := 1/10
    pcontScale := 5
    actorEntropyScale := 1/1000
    gradClipNorm := 100
    worldList := [[7], [1], [3], [8], [6]]
    actorList := [[2]]
    valueList := [[4], [9]]
    actorcriticList := [[2], [4]] }

/-- A concrete posterior model-state sequence of length three. -/
def postMsWit : Mat ℚ := [[1], [2], [3]]

/-- A concrete reward sequence of length three. -/
def rewardsWit : Mat ℚ := [[5], [6], [7]]

/-- The trainer obtained from trainerWit by the hard target update. -/
def trainerWitU : Trainer := { trainerWit with targetValueModel := some trainerWit.valueModel }

/-- A concrete saved dictionary missing the ValueModel key (and everything
after it). -/
def dictWit : String → Option Param := fun k =>
  if k = "RSSM" then some [11]
  else if k = "ObsEncoder" then some [12]
  else if k = "ObsDecoder" then some [13]
  else if k = "RewardDecoder" then some [14]
  else if k = "ActionModel" then some [15]
  else none

lemma cumprod_catOnes_dropLast (d : Mat ℚ) :
    cumprodRows ((catOnes d).dropLast) = cumulativeDiscount d.dropLast := by
  cases d with
  | nil => rfl
  | cons d₀ ds =>
    cases ds with
    | nil => rfl
    | cons d₁ ds₁ => rfl

lemma imagDiscountW_eq {σ : Type} (hd : Heads σ) (states : Mat σ) :
    imagDiscountW hd states = cumulativeDiscount ((imagDiscountArr hd states).dropLast) := by
  simpa [imagDiscountW] using cumprod_catOnes_dropLast (imagDiscountArr hd states)

/-- C9: every unimplemented-by-design entry point raises NotImplementedError
rather than silently doing nothing: constructing a Trainer with pixels set
fails, save_model fails for every save name, and the standalone _actor_loss
and _value_loss entry points fail on every call. -/
theorem unimplemented_paths_raise :
    (∀ (cfg : TrainingConfig) (ini : NetInit),
        trainerInit cfg ini true = Except.error TrainerErr.notImplemented) ∧
    (∀ (t : Trainer) (sn : String),
        saveModel t sn = Except.error TrainerErr.notImplemented) ∧
    (∀ t : Trainer, actorLossEntry t = Except.error TrainerErr.notImplemented) ∧
    (∀ t : Trainer, valueLossEntry t = Except.error TrainerErr.notImplemented) :=
  ⟨fun _ _ => rfl, fun _ _ => rfl, fun _ => rfl, fun _ => rfl⟩

/-- C3: for every prior/posterior latent sequence and every KL divergence of
the latent family, the balanced KL loss at balancing scale one half (the
convex combination of the two stop-gradient directions) equals in value the
plain mean KL divergence computed when balancing is disabled. -/
theorem kl_balanced_half_eq_plain {π : Type} (klFn : π → π → ℚ) (prior post : Mat π) :
    klLossOf (some (1 / 2)) klFn prior post = klLossOf none klFn prior post := by
  have hdet : ∀ m : Mat π, matDetach m = m := by
    intro m
    have hr : (rssmDetach : π → π) = fun x => x := rfl
    simp [matDetach, hr]
  simp only [klLossOf, hdet]
  ring

/-- C7: inside actorcritc_loss (the decoding happens under frozen world-model
and value parameters), the imagined reward at every imagined step is the mean
of the decoded reward distribution at that step, and the imagined value at
every imagined step is the target value head output when a fixed target is
configured and the live value head output otherwise. -/
theorem imagined_reward_value_decode {σ : Type} (hd : Heads σ) (states : Mat σ)
    (t b : ℕ) (s : σ) (h : (states[t]?.bind fun row => row[b]?) = some s) :
    ((imagReward hd states)[t]?.bind fun row => row[b]?) = some (hd.rewardDec s).mean ∧
    ((imagValue hd true states)[t]?.bind fun row => row[b]?) = some (hd.targetValueFn s) ∧
    ((imagValue hd false states)[t]?.bind fun row => row[b]?) = some (hd.valueFn s) := by
  cases hrow : states[t]? with
  | none =>
    rw [hrow] at h
    simp at h
  | some row =>
    rw [hrow] at h
    simp at h
    refine ⟨?_, ?_, ?_⟩ <;>
      simp [imagReward, imagValue, List.getElem?_map, hrow, h]

/-- Witness for C7 at a concrete state sequence. -/
theorem imagined_reward_value_decode_w :
    ((imagReward headsWit statesWit)[0]?.bind fun row => row[0]?) =
        some (headsWit.rewardDec 1).mean ∧
    ((imagValue headsWit true statesWit)[0]?.bind fun row => row[0]?) =
        some (headsWit.targetValueFn 1) ∧
    ((imagValue headsWit false statesWit)[0]?.bind fun row => row[0]?) =
        some (headsWit.valueFn 1) :=
  imagined_reward_value_decode headsWit statesWit 0 0 1 (by decide)

/-- C6: the total world-model loss returned by representation_loss equals
kl_scale * KL loss + reward loss + reconstruction loss + pcont_scale *
continuation loss, where each constituent loss is the negative mean
log-likelihood of its target under the corresponding decoded distribution:
the observations under the full-sequence decoding, the one-step-shifted
rewards and the one-step-shifted non-terminal indicators under the decoding
of all steps but the last. -/
theorem representation_loss_total {σ π : Type} (klScale pcontScale : ℚ) (balance : Option ℚ)
    (klFn : π → π → ℚ) (obsDec rewardDec pcontDec : σ → Dist) (postMs : Mat σ)
    (obs rewards nonterms : Mat ℚ) (prior post : Mat π) :
    let r := representationLoss klScale pcontScale balance klFn obsDec rewardDec pcontDec
      postMs obs rewards nonterms prior post
    r.modelLoss = klScale * r.klLoss + r.rewardLoss + r.obsLoss + pcontScale * r.pcontLoss ∧
    r.obsLoss = -matMean (distLogProbMat (postMs.map (·.map obsDec)) obs) ∧
    r.rewardLoss =
      -matMean (distLogProbMat (postMs.dropLast.map (·.map rewardDec)) (rewards.drop 1)) ∧
    r.pcontLoss =
      -matMean (distLogProbMat (postMs.dropLast.map (·.map pcontDec)) (nonterms.drop 1)) :=
  ⟨rfl, rfl, rfl, rfl⟩

/-- C4: the actor loss returned by actorcritc_loss is the negative of the sum
over imagined time steps of the batch-mean of discount_weight *
(lambda_return + entropy_scale * policy_entropy), where the discount-weight
sequence is the cumulative product that starts at 1 at step 0 and compounds
the decoded discount factors for subsequent steps. -/
theorem actor_loss_formula {σ : Type} (hd : Heads σ) (useFixedTarget : Bool)
    (entScale lam : ℚ) (states : Mat σ) (entropy : Mat ℚ) :
    (actorcritcLoss hd useFixedTarget entScale lam states entropy).1 =
      -(((matZipWith3 (fun w r h => w * (r + entScale * h))
          (cumulativeDiscount ((imagDiscountArr hd states).dropLast))
          (imagLambdaReturns hd useFixedTarget lam states)
          entropy.dropLast).map rowMean).sum) := by
  simp only [actorcritcLoss]
  rw [imagDiscountW_eq]

lemma mem_zipWith3 {α β γ δ : Type} (f : α → β → γ → δ) :
    ∀ (xs : List α) (ys : List β) (zs : List γ) (d : δ), d ∈ zipWith3 f xs ys zs →
      ∃ a ∈ xs, ∃ b ∈ ys, ∃ c ∈ zs, d = f a b c := by
  intro xs
  induction xs with
  | nil => intro ys zs d hd; exact absurd hd (List.not_mem_nil d)
  | cons a xs ih =>
    intro ys zs d hd
    cases ys with
    | nil => exact absurd hd (List.not_mem_nil d)
    | cons b ys =>
      cases zs with
      | nil => exact absurd hd (List.not_mem_nil d)
      | cons c zs =>
        simp only [zipWith3, List.mem_cons] at hd
        rcases hd with h | h
        · exact ⟨a, by simp, b, by simp, c, by simp, h⟩
        · obtain ⟨a₁, ha, b₁, hb, c₁, hc, rfl⟩ := ih ys zs d h
          exact ⟨a₁, by simp [ha], b₁, by simp [hb], c₁, by simp [hc], rfl⟩

lemma matUntainted_detach (m : Mat TD) : matUntainted (m.map (·.map TD.detach)) := by
  intro row hrow x hx
  simp only [List.mem_map] at hrow
  obtain ⟨r₀, _, rfl⟩ := hrow
  simp only [List.mem_map] at hx
  obtain ⟨x₀, _, rfl⟩ := hx
  rfl

lemma matUntainted_lift (vf : ℚ → ℚ) (m : Mat TD) (hm : matUntainted m) :
    matUntainted (m.map (·.map fun s => (⟨vf s.v, s.g⟩ : TD))) := by
  intro row hrow x hx
  simp only [List.mem_map] at hrow
  obtain ⟨r₀, hr₀, rfl⟩ := hrow
  simp only [List.mem_map] at hx
  obtain ⟨x₀, hx₀, rfl⟩ := hx
  exact hm r₀ hr₀ x₀ hx₀

lemma matUntainted_terms (a b c : Mat TD) (ha : matUntainted a) (hb : matUntainted b)
    (hc : matUntainted c) :
    matUntainted (matZipWith3 (fun w t p => tdHalf (tdSq (tdMul w (tdSub t p)))) a b c) := by
  intro row hrow x hx
  obtain ⟨ra, hra, rb, hrb, rc, hrc, rfl⟩ := mem_zipWith3 _ a b c row hrow
  obtain ⟨w, hw, t, ht, p, hp, rfl⟩ := mem_zipWith3 _ ra rb rc x hx
  have hwg := ha ra hra w hw
  have htg := hb rb hrb t ht
  have hpg := hc rc hrc p hp
  simp [tdHalf, tdSq, tdMul, tdSub, hwg, htg, hpg]

lemma foldr_tdAdd_untainted (row : List TD) (init : TD) (hrow : ∀ x ∈ row, x.g = false)
    (hinit : init.g = false) : (row.foldr tdAdd init).g = false := by
  induction row with
  | nil => exact hinit
  | cons x xs ih =>
    simp only [List.foldr_cons]
    have hx := hrow x (by simp)
    have hxs := ih fun y hy => hrow y (by simp [hy])
    simp [tdAdd, hx, hxs]

lemma tdMatSum_untainted (m : Mat TD) (hm : matUntainted m) : (tdMatSum m).g = false := by
  induction m with
  | nil => rfl
  | cons row rest ih =>
    have hrest : (tdMatSum rest).g = false := ih fun r hr x hx => hm r (by simp [hr]) x hx
    simp only [tdMatSum, List.foldr_cons]
    exact foldr_tdAdd_untainted row _ (fun x hx => hm row (by simp) x hx) hrest

/-- C1 (amended): the value loss returned by actorcritc_loss equals the sum
(not the mean: line 202 applies torch.mean to an already-summed scalar) over
step-batch elements of one half of the square of the product of the discount
weight with the error between the lambda-return target and the value
prediction on the imagined model states excluding the last step — the
discount weight multiplies the error inside the square; and, in the
gradient-taint embedding, no gradient flows from this loss into the
lambda-return targets, the discount weights, or the imagined model states,
whatever taint they carry, since all three are detached. -/
theorem value_loss_sum_weighted_detached :
    (∀ (σ : Type) (hd : Heads σ) (useFixedTarget : Bool) (entScale lam : ℚ) (states : Mat σ)
        (entropy : Mat ℚ),
        (actorcritcLoss hd useFixedTarget entScale lam states entropy).2 =
          matSum (matZipWith3 (fun w t p => (1 / 2 : ℚ) * (w * (t - p)) ^ 2)
            (cumulativeDiscount ((imagDiscountArr hd states).dropLast))
            (imagLambdaReturns hd useFixedTarget lam states)
            (valuePredOf hd states))) ∧
    (∀ (vf : ℚ → ℚ) (imagMs discountW lambdaRet : Mat TD),
        (valueLossTD vf imagMs discountW lambdaRet).g = false) := by
  constructor
  · intro σ hd useFixedTarget entScale lam states entropy
    simp only [actorcritcLoss]
    rw [imagDiscountW_eq]
  · intro vf imagMs discountW lambdaRet
    simp only [valueLossTD]
    apply tdMatSum_untainted
    apply matUntainted_terms
    · exact matUntainted_detach discountW
    · exact matUntainted_detach lambdaRet
    · exact matUntainted_lift vf _ (matUntainted_detach imagMs.dropLast)

/-- C1 counterexample: at a concrete imagined rollout the value loss the code
computes differs from the value the claim describes (the mean squared error
with each squared-error term scaled outside the square by its discount
weight): the code returns 5/2 there while the claimed formula gives 5/4. -/
theorem value_loss_mse_claim_false :
    (actorcritcLoss headsWit false 0 1 statesWit entropyWit).2 ≠
      specValueLoss (imagDiscountW headsWit statesWit)
        (imagLambdaReturns headsWit false 1 statesWit)
        (valuePredOf headsWit statesWit) := by
  norm_num [actorcritcLoss, specValueLoss, valuePredOf, imagLambdaReturns, imagDiscountW,
    imagDiscountArr, imagReward, imagValue, headsWit, statesWit, entropyWit, computeReturn,
    catOnes, cumprodRows, cumprodFrom, matZipWith3, zipWith3, matZipWith, matSum, matMean,
    matCount, rowMean, List.dropLast, List.getLastD]

lemma optimInit_ok (t u : Trainer) (h : optimInit t = Except.ok u) :
    u.targetValueModel = t.targetValueModel ∧ u.valueModel = t.valueModel ∧
    ∃ dm, u.discountModel = some dm ∧ t.discountModel = some dm ∧ dm ∈ u.worldList := by
  unfold optimInit at h
  split at h
  · simp at h
  next enc henc =>
    split at h
    · simp at h
    next dec hdec =>
      split at h
      · simp at h
      next dm hdm =>
        split at h
        · split at h
          · simp at h
          next tv htv =>
            injection h with h
            subst h
            exact ⟨rfl, rfl, dm, hdm, hdm, by simp⟩
        · injection h with h
          subst h
          exact ⟨rfl, rfl, dm, hdm, hdm, by simp⟩

/-- C2: for every training configuration with the discount-model flag
cleared, constructing a Trainer (on the supported non-pixel path) fails with
AttributeError at DiscountModel, because optim_initialize reads the attribute
unconditionally; and every Trainer whose construction finishes has a discount
model, placed in the world-model parameter list. -/
theorem trainer_requires_discount_model :
    (∀ (cfg : TrainingConfig) (ini : NetInit), cfg.useDiscountModel = false →
        trainerInit cfg ini false =
          Except.error (TrainerErr.attributeError "DiscountModel")) ∧
    (∀ (cfg : TrainingConfig) (ini : NetInit) (px : Bool) (t : Trainer),
        trainerInit cfg ini px = Except.ok t →
        ∃ dm, t.discountModel = some dm ∧ dm ∈ t.worldList) := by
  constructor
  · intro cfg ini h
    simp [trainerInit, optimInit, h]
  · intro cfg ini px t ht
    cases px with
    | true => simp [trainerInit] at ht
    | false =>
      simp only [trainerInit, Bool.false_eq_true, if_false] at ht
      obtain ⟨-, -, dm, hdm, -, hmem⟩ := optimInit_ok _ _ ht
      exact ⟨dm, hdm, hmem⟩

/-- Witness for C2: the concrete configuration with the discount-model flag
cleared makes construction fail with AttributeError at DiscountModel. -/
theorem trainer_requires_discount_model_w :
    trainerInit cfgNoDiscount iniWit false =
      Except.error (TrainerErr.attributeError "DiscountModel") :=
  trainer_requires_discount_model.1 cfgNoDiscount iniWit rfl

/-- C8: after every successful call of the hard-update routine update_target
the target value parameters exactly equal the live value (critic) parameters
— a full hard copy, no Polyak interpolation — and the same equality holds
immediately after a construction that configures a fixed target. -/
theorem target_hard_update :
    (∀ t u : Trainer, updateTarget t = Except.ok u →
        u.targetValueModel = some u.valueModel ∧ u.valueModel = t.valueModel) ∧
    (∀ (cfg : TrainingConfig) (ini : NetInit) (t : Trainer),
        trainerInit cfg ini false = Except.ok t → cfg.useFixedTarget = true →
        t.targetValueModel = some t.valueModel) := by
  constructor
  · intro t u h
    unfold updateTarget at h
    split at h
    · simp at h
    · injection h with h
      subst h
      exact ⟨rfl, rfl⟩
  · intro cfg ini t ht hft
    simp only [trainerInit, Bool.false_eq_true, if_false] at ht
    obtain ⟨h₁, h₂, -⟩ := optimInit_ok _ _ ht
    rw [h₁, h₂]
    simp [hft]

/-- Witness for C8 at a concrete trainer with a stale target value model. -/
theorem target_hard_update_w :
    trainerWitU.targetValueModel = some trainerWitU.valueModel ∧
    trainerWitU.valueModel = trainerWit.valueModel :=
  target_hard_update.1 trainerWit trainerWitU rfl

/-- C5: representation_loss decodes the observation reconstruction from the
full posterior model-state sequence (all seq_len steps), but decodes the
reward and discount predictions only from the model states at indices
0 .. seq_len - 2 (dropLast) and scores them against the reward and
non-terminal targets shifted by one step, target index i + 1 against decoded
index i. -/
theorem representation_loss_alignment {σ π : Type} (klScale pcontScale : ℚ)
    (balance : Option ℚ) (klFn : π → π → ℚ) (obsDec rewardDec pcontDec : σ → Dist)
    (postMs : Mat σ) (obs rewards nonterms : Mat ℚ) (prior post : Mat π) :
    let r := representationLoss klScale pcontScale balance klFn obsDec rewardDec pcontDec
      postMs obs rewards nonterms prior post
    r.obsLoss = obsLossOf (postMs.map (·.map obsDec)) obs ∧
    (postMs.map (·.map obsDec)).length = postMs.length ∧
    r.rewardLoss = rewardLossOf (postMs.dropLast.map (·.map rewardDec)) (rewards.drop 1) ∧
    r.pcontLoss = pcontLossOf (postMs.dropLast.map (·.map pcontDec)) (nonterms.drop 1) ∧
    (postMs.dropLast.map (·.map rewardDec)).length = postMs.length - 1 ∧
    (∀ i, i + 1 < postMs.length →
        (postMs.dropLast.map (·.map rewardDec))[i]? = (postMs[i]?).map (·.map rewardDec)) ∧
    (∀ i, (rewards.drop 1)[i]? = rewards[i + 1]?) ∧
    (∀ i, (nonterms.drop 1)[i]? = nonterms[i + 1]?) := by
  refine ⟨rfl, by simp, rfl, rfl, by simp, ?_, ?_, ?_⟩
  · intro i hi
    rw [List.getElem?_map, List.dropLast_eq_take, List.getElem?_take, if_pos (by omega)]
  · intro i
    rw [List.getElem?_drop, Nat.add_comm 1 i]
  · intro i
    rw [List.getElem?_drop, Nat.add_comm 1 i]

/-- Witness for C5 at a concrete three-step sequence. -/
theorem representation_loss_alignment_w :
    (postMsWit.dropLast.map (·.map headsWit.rewardDec))[0]? =
      (postMsWit[0]?).map (·.map headsWit.rewardDec) ∧
    (rewardsWit.drop 1)[0]? = rewardsWit[1]? := by
  have h := representation_loss_alignment (σ := ℚ) (π := ℚ) 0 0 none (fun _ _ => 0)
    headsWit.rewardDec headsWit.rewardDec headsWit.rewardDec postMsWit postMsWit rewardsWit
    rewardsWit [] []
  exact ⟨h.2.2.2.2.2.1 0 (by norm_num [postMsWit]), h.2.2.2.2.2.2.1 0⟩

lemma loadedFieldN_ge7 (t : Trainer) (j : ℕ) (hj : 7 ≤ j) : loadedFieldN t j = none := by
  unfold loadedFieldN
  rw [List.getD_eq_default]
  simpa using hj

/-- C10: load_save_dict restores the seven sub-models in the fixed order
RSSM, ObsEncoder, ObsDecoder, RewardDecoder, ActionModel, ValueModel,
DiscountModel; when the first missing key sits at position i it fails with a
key lookup error naming exactly that key, every sub-model before position i
has already been overwritten with the loaded parameters, and every sub-model
from position i on is untouched; when every key is present there is no error
and all seven are overwritten. -/
theorem load_save_dict_order (t : Trainer) (d : String → Option Param) :
    (∀ i, i < 7 → (∀ j, j < i → (d (saveKeyN j)).isSome) → d (saveKeyN i) = none →
        (loadSaveDict t d).2 = some (saveKeyN i) ∧
        (∀ j, j < i → loadedFieldN (loadSaveDict t d).1 j = d (saveKeyN j)) ∧
        (∀ j, i ≤ j → loadedFieldN (loadSaveDict t d).1 j = loadedFieldN t j)) ∧
    ((∀ j, j < 7 → (d (saveKeyN j)).isSome) →
        (loadSaveDict t d).2 = none ∧
        ∀ j, j < 7 → loadedFieldN (loadSaveDict t d).1 j = d (saveKeyN j)) := by
  constructor
  · intro i hi hpre hmiss
    interval_cases i
    · simp [saveKeyN] at hmiss
      refine ⟨by simp [loadSaveDict, saveKeyN, hmiss], ?_, ?_⟩
      · intro j hj
        exact absurd hj (Nat.not_lt_zero j)
      · intro j hj
        rcases Nat.lt_or_ge j 7 with h₇ | h₇
        · interval_cases j <;> simp [loadSaveDict, loadedFieldN, hmiss]
        · rw [loadedFieldN_ge7 _ _ h₇, loadedFieldN_ge7 _ _ h₇]
    · obtain ⟨p₀, h₀⟩ := Option.isSome_iff_exists.mp (hpre 0 (by omega))
      simp [saveKeyN] at h₀ hmiss
      refine ⟨by simp [loadSaveDict, saveKeyN, h₀, hmiss], ?_, ?_⟩
      · intro j hj
        interval_cases j <;> simp [loadSaveDict, loadedFieldN, saveKeyN, h₀, hmiss]
      · intro j hj
        rcases Nat.lt_or_ge j 7 with h₇ | h₇
        · interval_cases j <;> simp [loadSaveDict, loadedFieldN, h₀, hmiss]
        · rw [loadedFieldN_ge7 _ _ h₇, loadedFieldN_ge7 _ _ h₇]
    · obtain ⟨p₀, h₀⟩ := Option.isSome_iff_exists.mp (hpre 0 (by omega))
      obtain ⟨p₁, h₁⟩ := Option.isSome_iff_exists.mp (hpre 1 (by omega))
      simp [saveKeyN] at h₀ h₁ hmiss
      refine ⟨by simp [loadSaveDict, saveKeyN, h₀, h₁, hmiss], ?_, ?_⟩
      · intro j hj
        interval_cases j <;> simp [loadSaveDict, loadedFieldN, saveKeyN, h₀, h₁, hmiss]
      · intro j hj
        rcases Nat.lt_or_ge j 7 with h₇ | h₇
        · interval_cases j <;> simp [loadSaveDict, loadedFieldN, h₀, h₁, hmiss]
        · rw [loadedFieldN_ge7 _ _ h₇, loadedFieldN_ge7 _ _ h₇]
    · obtain ⟨p₀, h₀⟩ := Option.isSome_iff_exists.mp (hpre 0 (by omega))
      obtain ⟨p₁, h₁⟩ := Option.isSome_iff_exists.mp (hpre 1 (by omega))
      obtain ⟨p₂, h₂⟩ := Option.isSome_iff_exists.mp (hpre 2 (by omega))
      simp [saveKeyN] at h₀ h₁ h₂ hmiss
      refine ⟨by simp [loadSaveDict, saveKeyN, h₀, h₁, h₂, hmiss], ?_, ?_⟩
      · intro j hj
        interval_cases j <;> simp [loadSaveDict, loadedFieldN, saveKeyN, h₀, h₁, h₂, hmiss]
      · intro j hj
        rcases Nat.lt_or_ge j 7 with h₇ | h₇
        · interval_cases j <;> simp [loadSaveDict, loadedFieldN, h₀, h₁, h₂, hmiss]
        · rw [loadedFieldN_ge7 _ _ h₇, loadedFieldN_ge7 _ _ h₇]
    · obtain ⟨p₀, h₀⟩ := Option.isSome_iff_exists.mp (hpre 0 (by omega))
      obtain ⟨p₁, h₁⟩ := Option.isSome_iff_exists.mp (hpre 1 (by omega))
      obtain ⟨p₂, h₂⟩ := Option.isSome_iff_exists.mp (hpre 2 (by omega))
      obtain ⟨p₃, h₃⟩ := Option.isSome_iff_exists.mp (hpre 3 (by omega))
      simp [saveKeyN] at h₀ h₁ h₂ h₃ hmiss
      refine ⟨by simp [loadSaveDict, saveKeyN, h₀, h₁, h₂, h₃, hmiss], ?_, ?_⟩
      · intro j hj
        interval_cases j <;> simp [loadSaveDict, loadedFieldN, saveKeyN, h₀, h₁, h₂, h₃, hmiss]
      · intro j hj
        rcases Nat.lt_or_ge j 7 with h₇ | h₇
        · interval_cases j <;> simp [loadSaveDict, loadedFieldN, h₀, h₁, h₂, h₃, hmiss]
        · rw [loadedFieldN_ge7 _ _ h₇, loadedFieldN_ge7 _ _ h₇]
    · obtain ⟨p₀, h₀⟩ := Option.isSome_iff_exists.mp (hpre 0 (by omega))
      obtain ⟨p₁, h₁⟩ := Option.isSome_iff_exists.mp (hpre 1 (by omega))
      obtain ⟨p₂, h₂⟩ := Option.isSome_iff_exists.mp (hpre 2 (by omega))
      obtain ⟨p₃, h₃⟩ := Option.isSome_iff_exists.mp (hpre 3 (by omega))
      obtain ⟨p₄, h₄⟩ := Option.isSome_iff_exists.mp (hpre 4 (by omega))
      simp [saveKeyN] at h₀ h₁ h₂ h₃ h₄ hmiss
      refine ⟨by simp [loadSaveDict, saveKeyN, h₀, h₁, h₂, h₃, h₄, hmiss], ?_, ?_⟩
      · intro j hj
        interval_cases j <;>
          simp [loadSaveDict, loadedFieldN, saveKeyN, h₀, h₁, h₂, h₃, h₄, hmiss]
      · intro j hj
        rcases Nat.lt_or_ge j 7 with h₇ | h₇
        · interval_cases j <;> simp [loadSaveDict, loadedFieldN, h₀, h₁, h₂, h₃, h₄, hmiss]
        · rw [loadedFieldN_ge7 _ _ h₇, loadedFieldN_ge7 _ _ h₇]
    · obtain ⟨p₀, h₀⟩ := Option.isSome_iff_exists.mp (hpre 0 (by omega))
      obtain ⟨p₁, h₁⟩ := Option.isSome_iff_exists.mp (hpre 1 (by omega))
      obtain ⟨p₂, h₂⟩ := Option.isSome_iff_exists.mp (hpre 2 (by omega))
      obtain ⟨p₃, h₃⟩ := Option.isSome_iff_exists.mp (hpre 3 (by omega))
      obtain ⟨p₄, h₄⟩ := Option.isSome_iff_exists.mp (hpre 4 (by omega))
      obtain ⟨p₅, h₅⟩ := Option.isSome_iff_exists.mp (hpre 5 (by omega))
      simp [saveKeyN] at h₀ h₁ h₂ h₃ h₄ h₅ hmiss
      refine ⟨by simp [loadSaveDict, saveKeyN, h₀, h₁, h₂, h₃, h₄, h₅, hmiss], ?_, ?_⟩
      · intro j hj
        interval_cases j <;>
          simp [loadSaveDict, loadedFieldN, saveKeyN, h₀, h₁, h₂, h₃, h₄, h₅, hmiss]
      · intro j hj
        rcases Nat.lt_or_ge j 7 with h₇ | h₇
        · interval_cases j <;>
            simp [loadSaveDict, loadedFieldN, h₀, h₁, h₂, h₃, h₄, h₅, hmiss]
        · rw [loadedFieldN_ge7 _ _ h₇, loadedFieldN_ge7 _ _ h₇]
  · intro hall
    obtain ⟨p₀, h₀⟩ := Option.isSome_iff_exists.mp (hall 0 (by omega))
    obtain ⟨p₁, h₁⟩ := Option.isSome_iff_exists.mp (hall 1 (by omega))
    obtain ⟨p₂, h₂⟩ := Option.isSome_iff_exists.mp (hall 2 (by omega))
    obtain ⟨p₃, h₃⟩ := Option.isSome_iff_exists.mp (hall 3 (by omega))
    obtain ⟨p₄, h₄⟩ := Option.isSome_iff_exists.mp (hall 4 (by omega))
    obtain ⟨p₅, h₅⟩ := Option.isSome_iff_exists.mp (hall 5 (by omega))
    obtain ⟨p₆, h₆⟩ := Option.isSome_iff_exists.mp (hall 6 (by omega))
    simp [saveKeyN] at h₀ h₁ h₂ h₃ h₄ h₅ h₆
    refine ⟨by simp [loadSaveDict, h₀, h₁, h₂, h₃, h₄, h₅, h₆], ?_⟩
    intro j hj
    interval_cases j <;>
      simp [loadSaveDict, loadedFieldN, saveKeyN, h₀, h₁, h₂, h₃, h₄, h₅, h₆]

/-- Witness for C10: at a concrete trainer and a saved dictionary whose first
missing key is ValueModel, loading fails naming ValueModel, the five earlier
sub-models are already overwritten and the last two are untouched. -/
theorem load_save_dict_order_w :
    (loadSaveDict trainerWit dictWit).2 = some (saveKeyN 5) ∧
    (∀ j, j < 5 → loadedFieldN (loadSaveDict trainerWit dictWit).1 j =
      dictWit (saveKeyN j)) ∧
    (∀ j, 5 ≤ j → loadedFieldN (loadSaveDict trainerWit dictWit).1 j =
      loadedFieldN trainerWit j) :=
  (load_save_dict_order trainerWit dictWit).1 5 (by omega)
    (by intro j hj; interval_cases j <;> simp [dictWit, saveKeyN])
    (by simp [dictWit, saveKeyN])

end DreamerV2
